import Mathlib

/-!
Shallow embedding of the run-lifecycle client of the studio repository
(src/src/app/execute/page.tsx and src/src/components/excel-flow/ResultsSection.tsx):
endpoint registry lookup, path-parameter substitution, the status-poll loop,
result flattening, submission validation and the download handlers.
Each definition is translated from the TypeScript source; the theorems at the end
settle the frozen claims against these definitions.
-/

/-- HTTP method of an endpoint definition (`'GET' | 'POST' | 'DELETE'`). -/
inductive HttpMethod where
  | GET
  | POST
  | DELETE
deriving DecidableEq, Repr

/-- `interface ApiEndpoint` from execute/page.tsx lines 21-26. -/
structure ApiEndpoint where
  id : String
  path : String
  method : HttpMethod
  description : String
deriving DecidableEq, Repr

/-- JS `s.split(sep)[0]`: the characters of `s` before the first occurrence of the
separator character.  Used to compute a template's static portion. -/
def headBefore (sep : Char) (s : List Char) : List Char :=
  s.takeWhile (fun c => c != sep)

/-- The static portion of a path template, as computed by execute/page.tsx line 35:
`ep.path.split(':')[0].split('{')[0]` — the substring before the first `:` and
before the first opening brace, i.e. before the first placeholder of either syntax. -/
def staticPortion (path : String) : String :=
  ⟨headBefore '\x7b' (headBefore ':' path.data)⟩

/-- JS `s.startsWith(p)`: `p` is a prefix of `s`, character by character. -/
def jsStartsWith (s p : String) : Bool :=
  p.data.isPrefixOf s.data

/-- The match predicate of execute/page.tsx line 35:
the template's static portion must be a prefix of the requested path and the
methods must be equal. -/
def endpointMatches (pathKey : String) (method : HttpMethod) (ep : ApiEndpoint) : Bool :=
  jsStartsWith pathKey (staticPortion ep.path) && ep.method == method

/-- The lookup over a parsed endpoint list (execute/page.tsx line 35):
`endpoints.find(ep => pathKey.startsWith(...) && ep.method === method)` —
the first stored definition that matches, or `none`. -/
def resolveEndpoint (endpoints : List ApiEndpoint) (pathKey : String) (method : HttpMethod) :
    Option ApiEndpoint :=
  endpoints.find? (endpointMatches pathKey method)

/-- `getApiEndpoint` of execute/page.tsx lines 30-41.  The persisted store is
modelled as `Option String` (`localStorage.getItem` result, `none` = absent) and
JSON parsing as a function returning `none` when `JSON.parse` would throw (the
`try`/`catch` turns any such failure into `undefined`).  An empty stored string is
falsy in JS, so the `if (storedEndpoints)` guard skips it. -/
def getApiEndpoint (store : Option String) (parseEndpoints : String → Option (List ApiEndpoint))
    (pathKey : String) (method : HttpMethod) : Option ApiEndpoint :=
  match store with
  | none => none
  | some s =>
    if s = "" then none
    else
      match parseEndpoints s with
      | none => none
      | some endpoints => resolveEndpoint endpoints pathKey method

/-- The lookup of ResultsSection.tsx line 39:
`ep.path === pathKey || pathKey.startsWith(ep.path.split(':')[0])` with exact
method equality.  Unlike the execute-page variant it does not strip the brace
placeholder syntax from the static portion. -/
def resolveEndpointRS (endpoints : List ApiEndpoint) (pathKey : String) (method : HttpMethod) :
    Option ApiEndpoint :=
  endpoints.find? (fun ep =>
    (ep.path == pathKey || jsStartsWith pathKey ⟨headBefore ':' ep.path.data⟩)
      && ep.method == method)

/-- `getApiEndpoint` of ResultsSection.tsx lines 34-45 (same guard structure as the
execute-page variant, different match predicate). -/
def getApiEndpointRS (store : Option String) (parseEndpoints : String → Option (List ApiEndpoint))
    (pathKey : String) (method : HttpMethod) : Option ApiEndpoint :=
  match store with
  | none => none
  | some s =>
    if s = "" then none
    else
      match parseEndpoints s with
      | none => none
      | some endpoints => resolveEndpointRS endpoints pathKey method

/-- JS `s.replace(pat, rep)` with a plain-string pattern: replaces only the FIRST
occurrence of `pat`; if `pat` does not occur, returns `s` unchanged.  (Modelled for
replacement strings containing no dollar patterns, which is the case for all path
parameters used by the client.) -/
def listReplaceFirst (pat rep : List Char) : List Char → List Char
  | [] => if pat.isPrefixOf ([] : List Char) then rep else []
  | c :: rest =>
    if pat.isPrefixOf (c :: rest) then rep ++ (c :: rest).drop pat.length
    else c :: listReplaceFirst pat rep rest

/-- String wrapper for `listReplaceFirst`. -/
def jsReplaceFirst (s pat rep : String) : String :=
  ⟨listReplaceFirst pat.data rep.data s.data⟩

/-- `fillPathParameters` of execute/page.tsx lines 43-49: for each parameter in
iteration order, `path.replace(":key", v).replace("{key}", v)` — each `replace`
substitutes only the first occurrence of its pattern.  Parameters are modelled as
an association list in JS object-key insertion order. -/
def fillPathParameters (pathWithParams : String) (params : List (String × String)) : String :=
  params.foldl
    (fun path kv =>
      jsReplaceFirst (jsReplaceFirst path (":" ++ kv.1) kv.2) ("\x7b" ++ kv.1 ++ "\x7d") kv.2)
    pathWithParams

/-- `fillPathParameters` of ResultsSection.tsx lines 47-53: identical except that it
only substitutes the colon syntax (`path.replace(":key", v)`), never braces. -/
def fillPathParametersRS (pathWithParams : String) (params : List (String × String)) : String :=
  params.foldl (fun path kv => jsReplaceFirst path (":" ++ kv.1) kv.2) pathWithParams

/-- JS `p.substring(p.lastIndexOf('/') + 1)`: the characters after the last slash,
or the whole string when there is none (execute/page.tsx line 243,
ResultsSection.tsx line 131). -/
def basenameOf (p : String) : String :=
  ⟨p.data.foldl (fun acc c => if c = '/' then [] else acc ++ [c]) []⟩

/-- JS `\w` word-character class: ASCII letters, digits and underscore. -/
def isWordChar (c : Char) : Bool :=
  c.isAlpha || c.isDigit || c == '_'

/-- JS `.replace(/\b\w/g, l => l.toUpperCase())`: uppercase every word character
that is not preceded by a word character.  The boolean argument records whether
the previous character was a word character. -/
def capWordStarts : Bool → List Char → List Char
  | _, [] => []
  | prevW, c :: rest =>
    (if isWordChar c && !prevW then c.toUpper else c) :: capWordStarts (isWordChar c) rest

/-- The display humanisation of execute/page.tsx line 248:
`fileType.replace(/_/g, ' ').replace(/\b\w/g, l => l.toUpperCase())`. -/
def humanizeFileType (t : String) : String :=
  ⟨capWordStarts false (t.data.map (fun c => if c = '_' then ' ' else c))⟩

/-- `interface OutputFile` of execute/page.tsx lines 70-76. -/
structure OutputFile where
  id : String
  name : String
  path : String
  type : String
  templateOrigin : String
deriving DecidableEq, Repr

/-- One pushed entry of the flattening loop, execute/page.tsx lines 243-250. -/
def mkOutputFile (runId templateOrigin fileType backendFilePath : String) : OutputFile :=
  let filename := basenameOf backendFilePath
  { id := runId ++ "_" ++ templateOrigin ++ "_" ++ fileType ++ "_" ++ filename
  , name := filename
  , path := filename
  , type := humanizeFileType fileType
  , templateOrigin := templateOrigin }

/-- The two-level outputs mapping `Record<string, Record<string, string>>`,
modelled as association lists in received (JS insertion) order. -/
abbrev Outputs : Type := List (String × List (String × String))

/-- The flattening of execute/page.tsx lines 239-253: outer `Object.entries`
forEach, inner forEach, `files.push(...)` — a left fold appending one descriptor
per `(templateOrigin, fileType, backendFilePath)` entry. -/
def flattenOutputs (runId : String) (outputs : Outputs) : List OutputFile :=
  outputs.foldl
    (fun files entry =>
      entry.2.foldl (fun fs kv => fs ++ [mkOutputFile runId entry.1 kv.1 kv.2]) files)
    []

/-- The flat list of `(sourceName, artifactKind, backendPath)` entries of an
outputs mapping, outer order first, inner order within. -/
def outputEntries (outputs : Outputs) : List (String × String × String) :=
  outputs.foldr (fun entry acc => entry.2.map (fun kv => (entry.1, kv.1, kv.2)) ++ acc) []

/-- `BackendStatusResponse` of execute/page.tsx lines 51-58. -/
structure StatusSnapshot where
  run_id : String
  status : String
  progress : Nat
  current_stage : String
  start_time : String
  elapsed : String
deriving DecidableEq, Repr

/-- Convenience constructor for concrete status snapshots. -/
def mkSnap (rid st : String) (prog : Nat) (stage : String) : StatusSnapshot :=
  { run_id := rid, status := st, progress := prog, current_stage := stage
  , start_time := "", elapsed := "" }

/-- Outcome of one status fetch, as observed by `fetchRunStatus`
(execute/page.tsx lines 194-219): either a parsed response body, or a failure
(transport error, non-ok HTTP status, or unparseable body — all three reach the
same `catch` block). -/
inductive PollResponse where
  | success (d : StatusSnapshot)
  | failure (msg : String)
deriving DecidableEq, Repr

/-- The string returned by `fetchRunStatus` for a poll outcome: the backend status
on success (`completed` and `failed` are returned as such), `"error"` from the
`catch` block on any transport or parse failure. -/
def pollOutcome : PollResponse → String
  | .success d => d.status
  | .failure _ => "error"

/-- Observable network events of the poll loop of execute/page.tsx lines 265-284,
with the (virtual) time at which each request is issued. -/
inductive PollEvent where
  | statusFetch (time : Nat)
  | resultsFetch (time : Nat)
deriving DecidableEq, Repr

/-- The polling `useEffect` of execute/page.tsx lines 265-284, including its React
restart semantics, driven by the sequence of responses its fetches will receive
(an empty remainder means the last issued fetch never resolved).  `dep` is the
value of the `runStatusInfo?.status` dependency (line 284) at the current effect
run.  The effect's guard (line 267) runs the body only when the status is neither
`completed` nor `failed`; the body calls `poll()` which issues a status fetch
immediately.  On a response, `fetchRunStatus` stores the new snapshot, so the
status becomes `pollOutcome r`; the `poll` continuation then fetches results once
on `completed`, stops on `failed`/`error`/`config_error`, and otherwise schedules
`setTimeout(poll, 3000)`.  When the stored status DIFFERS from `dep`, React
re-runs the effect: the cleanup (line 280) clears the just-scheduled timer and
the new effect body polls again immediately at the same time with the updated
dependency; only when the status value is unchanged does a scheduled fetch
actually fire 3000 ms later. -/
def runEffect : Nat → Option String → List PollResponse → List PollEvent
  | t, dep, [] =>
    if dep = some "completed" ∨ dep = some "failed" then []
    else [PollEvent.statusFetch t]
  | t, dep, r :: rest =>
    if dep = some "completed" ∨ dep = some "failed" then []
    else
      PollEvent.statusFetch t ::
        (if pollOutcome r = "completed" then [PollEvent.resultsFetch t]
         else if pollOutcome r = "failed" then []
         else if some (pollOutcome r) = dep then
           (if pollOutcome r = "error" ∨ pollOutcome r = "config_error" then []
            else runEffect (t + 3000) dep rest)
         else runEffect t (some (pollOutcome r)) rest)

/-- The poll loop of ResultsSection.tsx lines 158-189 (`pollStatus`, driven by its
`fetchRunStatus` of lines 68-97): this effect's dependencies are only the stable
`runId` and callbacks, so it never restarts on a status change.  `fetchRunStatus`
returns `'completed'`, `'failed'`, or `null` (still processing OR any error, since
the `catch` only sets a status message); `pollStatus` fetches results once on
`'completed'`, stops on `'failed'`, and otherwise — including after every error —
reschedules itself via `setTimeout(pollStatus, 3000)` indefinitely. -/
def runPollRS : Nat → List PollResponse → List PollEvent
  | t, [] => [PollEvent.statusFetch t]
  | t, r :: rest =>
    PollEvent.statusFetch t ::
      (match r with
       | PollResponse.success d =>
         if d.status = "completed" then [PollEvent.resultsFetch t]
         else if d.status = "failed" then []
         else runPollRS (t + 3000) rest
       | PollResponse.failure _ => runPollRS (t + 3000) rest)

/-- How `fetchRunStatus` updates `runStatusInfo` on a poll outcome: a successful
response replaces the snapshot wholesale (line 208); the `catch` block spreads the
previous snapshot with `status: "error"` and an error stage (line 216; a spread of
`null` leaves the remaining fields at their defaults). -/
def applyStatusOutcome (prev : Option StatusSnapshot) : PollResponse → Option StatusSnapshot
  | .success d => some d
  | .failure msg =>
    some { run_id := (prev.map StatusSnapshot.run_id).getD ""
         , status := "error"
         , progress := (prev.map StatusSnapshot.progress).getD 0
         , current_stage := "Error fetching status: " ++ msg
         , start_time := (prev.map StatusSnapshot.start_time).getD ""
         , elapsed := (prev.map StatusSnapshot.elapsed).getD "" }

/-- The response sequence of the C1 scenario. -/
def c1Seq : List PollResponse :=
  [ PollResponse.success (mkSnap "r1" "queued" 0 "init")
  , PollResponse.success (mkSnap "r1" "processing" 30 "stage1")
  , PollResponse.success (mkSnap "r1" "processing" 70 "stage2")
  , PollResponse.success (mkSnap "r1" "completed" 100 "done") ]

/-- Observable page state relevant to run-status polling (execute/page.tsx):
the current run, the last status snapshot, and the pending `setTimeout` handle of
the active effect (`none` = no scheduled fetch). -/
structure PageState where
  currentRunId : Option String
  runStatusInfo : Option StatusSnapshot
  pendingTimer : Option Nat
deriving DecidableEq, Repr

/-- The effect cleanup of execute/page.tsx line 280, `() => clearTimeout(pollTimeout)`:
run by React when `currentRunId` changes or the page unmounts; it cancels the
pending scheduled fetch and nothing else. -/
def effectCleanup (st : PageState) : PageState :=
  { st with pendingTimer := none }

/-- Starting a new run: the previous effect's cleanup cancels the scheduled
fetch, then `handleExecutePipeline` resets the run state and installs the new run
id (execute/page.tsx lines 161-165 and 185).  An already in-flight HTTP response
cannot be cancelled and is not represented here; its later arrival is modelled by
`applyStatusResponse`. -/
def startNewRun (st : PageState) (newId : String) : PageState :=
  let st1 := effectCleanup st
  { st1 with currentRunId := some newId, runStatusInfo := none }

/-- The successful-response handler of `fetchRunStatus` (execute/page.tsx
line 208): `setRunStatusInfo(statusData)` — applied unconditionally, with no check
that the response's run is still the current one. -/
def applyStatusResponse (st : PageState) (d : StatusSnapshot) : PageState :=
  { st with runStatusInfo := some d }

/-- Outcome of `handleExecutePipeline` up to and including its single network
dispatch (execute/page.tsx lines 150-192). -/
inductive SubmitOutcome where
  | validationError
  | configError
  | dispatched (templates : List String) (vendor : String)
deriving DecidableEq, Repr

/-- JS falsiness of `selectedVendorId` (`!selectedVendorId`): `null` or `""`. -/
def vendorFalsy : Option String → Bool
  | none => true
  | some s => s = ""

/-- The guard phase of `handleExecutePipeline` (execute/page.tsx lines 150-179):
selection validation first (before any endpoint lookup or network call), then the
`/process` endpoint lookup, then the single POST dispatch.  The second component
counts the network calls issued. -/
def handleExecutePipelineStart (selectedTemplateIds : List String)
    (selectedVendorId : Option String) (store : Option String)
    (parseEndpoints : String → Option (List ApiEndpoint)) : SubmitOutcome × Nat :=
  if selectedTemplateIds.length = 0 || vendorFalsy selectedVendorId then
    (SubmitOutcome.validationError, 0)
  else
    match getApiEndpoint store parseEndpoints "/process" HttpMethod.POST with
    | none => (SubmitOutcome.configError, 0)
    | some _ => (SubmitOutcome.dispatched selectedTemplateIds (selectedVendorId.getD ""), 1)

/-- Result of the download fetch as observed by the handlers: success with a byte
payload, a non-ok HTTP response, or a network failure. -/
inductive FetchResult where
  | ok
  | httpError (detail : String)
  | transportError (msg : String)
deriving DecidableEq, Repr

/-- Outcome of a download handler: configuration error, reported failure, or a
browser file save with the given suggested file name (`a.download = ...`). -/
inductive DownloadOutcome where
  | configError
  | failed (msg : String)
  | saved (suggestedName : String)
deriving DecidableEq, Repr

/-- `handleDownloadFile` of execute/page.tsx lines 287-314: resolves the
`/download/:run_id/:filename` endpoint, fetches, and on success saves the payload
with `a.download = fileNameToDownload` (line 305). -/
def handleDownloadFile (store : Option String)
    (parseEndpoints : String → Option (List ApiEndpoint))
    (runIdToDownload fileNameToDownload : String) (fr : FetchResult) : DownloadOutcome :=
  match getApiEndpoint store parseEndpoints "/download/:run_id/:filename" HttpMethod.GET with
  | none => DownloadOutcome.configError
  | some _ =>
    match fr with
    | FetchResult.ok => DownloadOutcome.saved fileNameToDownload
    | FetchResult.httpError d => DownloadOutcome.failed d
    | FetchResult.transportError m => DownloadOutcome.failed m

/-- `handleDownloadAllZip` of execute/page.tsx lines 316-346: resolves the
`/download/zip/:run_id` endpoint, fetches, and on success saves the payload with
the synthesized name of line 335. -/
def handleDownloadAllZip (store : Option String)
    (parseEndpoints : String → Option (List ApiEndpoint))
    (runIdToDownload : String) (fr : FetchResult) : DownloadOutcome :=
  match getApiEndpoint store parseEndpoints "/download/zip/:run_id" HttpMethod.GET with
  | none => DownloadOutcome.configError
  | some _ =>
    match fr with
    | FetchResult.ok =>
      DownloadOutcome.saved ("onboarding_results_" ++ runIdToDownload ++ ".zip")
    | FetchResult.httpError d => DownloadOutcome.failed d
    | FetchResult.transportError m => DownloadOutcome.failed m

/-- A concrete endpoint table with the two download endpoints registered. -/
def sampleEndpoints : List ApiEndpoint :=
  [ { id := "1", path := "/download/:run_id/:filename", method := HttpMethod.GET
    , description := "single file" }
  , { id := "2", path := "/download/zip/:run_id", method := HttpMethod.GET
    , description := "zip archive" } ]

/-- A concrete non-empty persisted store string. -/
def sampleStore : Option String := some "cfg"

/-- A concrete parser mapping the sample store to the sample endpoint table. -/
def sampleParseEndpoints : String → Option (List ApiEndpoint) :=
  fun _ => some sampleEndpoints

/-- The outputs mapping of the C6 scenario. -/
def sampleOutputs : Outputs :=
  [ ("tmplA", [("excel", "/runs/r1/tmplA_excel_1.xlsx")])
  , ("tmplB", [("json", "/runs/r1/tmplB_json_1.json")]) ]

/-- An outputs mapping with one entry whose backend path is empty. -/
def emptyPathOutputs : Outputs :=
  [("t", [("e", "")])]

/-- A fold that pushes one mapped element per entry equals the accumulator followed
by the mapped list. -/
lemma foldl_push_eq_map {α β : Type} (f : α → β) :
    ∀ (l : List α) (acc : List β), l.foldl (fun a x => a ++ [f x]) acc = acc ++ l.map f := by
  intro l
  induction l with
  | nil => intro acc; simp
  | cons x xs ih => intro acc; simp [ih]

/-- The outer fold of the flattening, generalised over its accumulator. -/
lemma flattenOutputs_outer (runId : String) :
    ∀ (outputs : Outputs) (acc : List OutputFile),
      outputs.foldl
          (fun files entry =>
            entry.2.foldl (fun fs kv => fs ++ [mkOutputFile runId entry.1 kv.1 kv.2]) files)
          acc
        = acc ++ (outputEntries outputs).map (fun e => mkOutputFile runId e.1 e.2.1 e.2.2) := by
  intro outputs
  induction outputs with
  | nil => intro acc; simp [outputEntries]
  | cons entry rest ih =>
    intro acc
    simp only [List.foldl_cons]
    rw [foldl_push_eq_map (fun kv => mkOutputFile runId entry.1 kv.1 kv.2) entry.2 acc, ih]
    simp [outputEntries, List.map_append, List.map_map, List.append_assoc, Function.comp]

/-- The flattening is exactly one descriptor per `(sourceName, artifactKind)` entry,
in outer-then-inner received order. -/
lemma flattenOutputs_eq_map (runId : String) (outputs : Outputs) :
    flattenOutputs runId outputs
      = (outputEntries outputs).map (fun e => mkOutputFile runId e.1 e.2.1 e.2.2) := by
  simpa using flattenOutputs_outer runId outputs []

/-- The status dependency `runEffect` threads is exactly the status of the snapshot
`fetchRunStatus` stores (`applyStatusOutcome`): a success stores its body, a
failure stores a snapshot with status `"error"`. -/
lemma pollOutcome_eq_snapshot_status (prev : Option StatusSnapshot) (r : PollResponse) :
    (applyStatusOutcome prev r).map StatusSnapshot.status = some (pollOutcome r) := by
  cases r <;> simp [applyStatusOutcome, pollOutcome]

/-- C4: `resolve` (getApiEndpoint's lookup over the stored list, execute/page.tsx
line 35) returns only definitions whose static prefix (the substring of the path
template before its first placeholder) is a prefix of the requested path with an
exactly matching method; it returns NotFound (`none`) when no stored definition
satisfies this; and among multiple matches it deterministically returns the
first-defined one. -/
theorem resolveEndpoint_prefix_method_first :
    (∀ (eps : List ApiEndpoint) (pathKey : String) (m : HttpMethod) (ep : ApiEndpoint),
        resolveEndpoint eps pathKey m = some ep →
          jsStartsWith pathKey (staticPortion ep.path) = true ∧ ep.method = m ∧ ep ∈ eps)
    ∧ (∀ (eps : List ApiEndpoint) (pathKey : String) (m : HttpMethod),
        (∀ ep ∈ eps, ¬ (jsStartsWith pathKey (staticPortion ep.path) = true ∧ ep.method = m)) →
          resolveEndpoint eps pathKey m = none)
    ∧ (∀ (pre : List ApiEndpoint) (ep : ApiEndpoint) (post : List ApiEndpoint)
          (pathKey : String) (m : HttpMethod),
        (∀ e ∈ pre, ¬ (jsStartsWith pathKey (staticPortion e.path) = true ∧ e.method = m)) →
        jsStartsWith pathKey (staticPortion ep.path) = true → ep.method = m →
          resolveEndpoint (pre ++ ep :: post) pathKey m = some ep) := by
  refine ⟨?_, ?_, ?_⟩
  · intro eps pathKey m ep h
    have hp := List.find?_some h
    have hm := List.mem_of_find?_eq_some h
    simp only [endpointMatches, Bool.and_eq_true, beq_iff_eq] at hp
    exact ⟨hp.1, hp.2, hm⟩
  · intro eps pathKey m h
    refine List.find?_eq_none.mpr ?_
    intro ep hep
    simp only [endpointMatches, Bool.and_eq_true, beq_iff_eq]
    exact h ep hep
  · intro pre ep post pathKey m hpre h1 h2
    have hnone : pre.find? (endpointMatches pathKey m) = none := by
      refine List.find?_eq_none.mpr ?_
      intro e he
      simp only [endpointMatches, Bool.and_eq_true, beq_iff_eq]
      exact hpre e he
    have hpos : endpointMatches pathKey m ep = true := by
      simp [endpointMatches, Bool.and_eq_true, beq_iff_eq, h1, h2]
    simp [resolveEndpoint, List.find?_append, hnone, List.find?_cons_of_pos _ hpos]

/-- Two endpoint definitions sharing one template path, to exhibit deterministic
first-match resolution. -/
def epDupA : ApiEndpoint :=
  { id := "a", path := "/download/:run_id/:filename", method := HttpMethod.GET
  , description := "first" }

/-- The later duplicate of `epDupA`. -/
def epDupB : ApiEndpoint :=
  { id := "b", path := "/download/:run_id/:filename", method := HttpMethod.GET
  , description := "second" }

/-- Witness for C4: with two stored definitions matching the same request, the
first-defined one is returned. -/
theorem resolveEndpoint_prefix_method_first_witness :
    resolveEndpoint ([] ++ epDupA :: [epDupB]) "/download/r1/f.xlsx" HttpMethod.GET
      = some epDupA :=
  resolveEndpoint_prefix_method_first.2.2 [] epDupA [epDupB] "/download/r1/f.xlsx"
    HttpMethod.GET (fun e he => absurd he (List.not_mem_nil e)) (by decide) rfl

/-- C10: the endpoint lookup is a total function and surfaces every degenerate
store as NotFound: an absent store, an empty stored string (falsy in JS), a
stored string that does not parse as JSON (`JSON.parse` throws, the `catch`
returns `undefined`), and an empty endpoint list all yield `none`, for both the
execute-page and the ResultsSection lookup. -/
theorem getApiEndpoint_total_on_bad_store :
    (∀ (parse : String → Option (List ApiEndpoint)) (pathKey : String) (m : HttpMethod),
        getApiEndpoint none parse pathKey m = none)
    ∧ (∀ (parse : String → Option (List ApiEndpoint)) (pathKey : String) (m : HttpMethod),
        getApiEndpoint (some "") parse pathKey m = none)
    ∧ (∀ (s : String) (parse : String → Option (List ApiEndpoint)) (pathKey : String)
          (m : HttpMethod), parse s = none → getApiEndpoint (some s) parse pathKey m = none)
    ∧ (∀ (s : String) (parse : String → Option (List ApiEndpoint)) (pathKey : String)
          (m : HttpMethod), parse s = some [] → getApiEndpoint (some s) parse pathKey m = none)
    ∧ (∀ (parse : String → Option (List ApiEndpoint)) (pathKey : String) (m : HttpMethod),
        getApiEndpointRS none parse pathKey m = none)
    ∧ (∀ (parse : String → Option (List ApiEndpoint)) (pathKey : String) (m : HttpMethod),
        getApiEndpointRS (some "") parse pathKey m = none)
    ∧ (∀ (s : String) (parse : String → Option (List ApiEndpoint)) (pathKey : String)
          (m : HttpMethod), parse s = none → getApiEndpointRS (some s) parse pathKey m = none)
    ∧ (∀ (s : String) (parse : String → Option (List ApiEndpoint)) (pathKey : String)
          (m : HttpMethod), parse s = some [] → getApiEndpointRS (some s) parse pathKey m = none) := by
  refine ⟨?_, ?_, ?_, ?_, ?_, ?_, ?_, ?_⟩
  · intro parse pathKey m; rfl
  · intro parse pathKey m; simp [getApiEndpoint]
  · intro s parse pathKey m h
    by_cases hs : s = "" <;> simp [getApiEndpoint, hs, h]
  · intro s parse pathKey m h
    by_cases hs : s = "" <;> simp [getApiEndpoint, hs, h, resolveEndpoint]
  · intro parse pathKey m; rfl
  · intro parse pathKey m; simp [getApiEndpointRS]
  · intro s parse pathKey m h
    by_cases hs : s = "" <;> simp [getApiEndpointRS, hs, h]
  · intro s parse pathKey m h
    by_cases hs : s = "" <;> simp [getApiEndpointRS, hs, h, resolveEndpointRS]

/-- Witness for C10: an unparseable store and an empty endpoint list both resolve
to NotFound. -/
theorem getApiEndpoint_total_on_bad_store_witness :
    getApiEndpoint (some "notjson") (fun _ => none) "/process" HttpMethod.POST = none
    ∧ getApiEndpoint (some "x") (fun _ => some []) "/process" HttpMethod.POST = none
    ∧ getApiEndpointRS (some "notjson") (fun _ => none) "/status/:run_id" HttpMethod.GET = none :=
  ⟨getApiEndpoint_total_on_bad_store.2.2.1 "notjson" (fun _ => none) "/process"
      HttpMethod.POST rfl,
   getApiEndpoint_total_on_bad_store.2.2.2.1 "x" (fun _ => some []) "/process"
      HttpMethod.POST rfl,
   getApiEndpoint_total_on_bad_store.2.2.2.2.2.2.1 "notjson" (fun _ => none) "/status/:run_id"
      HttpMethod.GET rfl⟩

/-- Counterexample to C5: `fillParameters` does NOT substitute every occurrence of
a placeholder — JS `String.replace` with a string pattern replaces only the first
occurrence, so a template in which the same placeholder appears twice keeps its
second occurrence as literal text. -/
theorem fillPathParameters_counterexample :
    fillPathParameters "/download/:run_id/:run_id" [("run_id", "r1")] = "/download/r1/:run_id"
    ∧ fillPathParameters "/download/:run_id/:run_id" [("run_id", "r1")] ≠ "/download/r1/r1" := by
  exact ⟨rfl, by decide⟩

/-- C5 (amended): for each parameter present, `fillPathParameters` substitutes only
the FIRST occurrence of each supported placeholder syntax (the execute-page
version supports `:name` and brace-delimited names; the ResultsSection version
only `:name`); placeholders whose parameter is absent are left as literal text
and no error is raised; the specified download examples hold. -/
theorem fillPathParameters_first_occurrence :
    fillPathParameters "/download/:run_id/:filename"
        [("run_id", "r1"), ("filename", "f.xlsx")] = "/download/r1/f.xlsx"
    ∧ fillPathParameters "/download/:run_id/:filename" [("run_id", "r1")]
        = "/download/r1/:filename"
    ∧ fillPathParametersRS "/download/:run_id/:filename"
        [("run_id", "r1"), ("filename", "f.xlsx")] = "/download/r1/f.xlsx"
    ∧ fillPathParametersRS "/download/:run_id/:filename" [("run_id", "r1")]
        = "/download/r1/:filename"
    ∧ fillPathParameters "/status/\x7brun_id\x7d" [("run_id", "r1")] = "/status/r1"
    ∧ fillPathParametersRS "/status/\x7brun_id\x7d" [("run_id", "r1")]
        = "/status/\x7brun_id\x7d"
    ∧ fillPathParameters "/download/:run_id/:run_id" [("run_id", "r1")]
        = "/download/r1/:run_id"
    ∧ (∀ template : String, fillPathParameters template [] = template)
    ∧ (∀ template : String, fillPathParametersRS template [] = template) :=
  ⟨rfl, rfl, rfl, rfl, rfl, rfl, rfl, fun _ => rfl, fun _ => rfl⟩

/-- C6: flattening yields exactly one ArtifactDescriptor per
`(sourceName, artifactKind)` entry, iterating outer entries then inner entries in
received order, with `downloadKey` (the `path`/`name` field used by the download
endpoint) equal to the basename of the backend path; on the specified example it
yields exactly the two descriptors `tmplA_excel_1.xlsx` and `tmplB_json_1.json`
in that order. -/
theorem flattenOutputs_one_per_entry_in_order :
    (∀ (runId : String) (outputs : Outputs),
        flattenOutputs runId outputs
          = (outputEntries outputs).map (fun e => mkOutputFile runId e.1 e.2.1 e.2.2))
    ∧ (flattenOutputs "r1" sampleOutputs).map OutputFile.path
        = ["tmplA_excel_1.xlsx", "tmplB_json_1.json"]
    ∧ (flattenOutputs "r1" sampleOutputs).length = 2
    ∧ (∀ (runId templateOrigin fileType backendFilePath : String),
        (mkOutputFile runId templateOrigin fileType backendFilePath).path
          = basenameOf backendFilePath) :=
  ⟨flattenOutputs_eq_map, rfl, rfl, fun _ _ _ _ => rfl⟩

/-- Counterexample to C7: an outputs entry whose backend path is empty (so its
basename cannot be computed) is NOT excluded from the displayed artifact list and
no anomaly is logged — the code of execute/page.tsx lines 239-253 pushes a
descriptor with an empty basename unconditionally. -/
theorem flattenOutputs_no_exclusion_counterexample :
    flattenOutputs "r1" emptyPathOutputs ≠ []
    ∧ (flattenOutputs "r1" emptyPathOutputs).map OutputFile.path = [""] :=
  ⟨by decide, rfl⟩

/-- C7 (amended): an ArtifactDescriptor exists if and only if a corresponding
`(sourceName, artifactKind)` entry exists in the last-fetched outputs, with no
filtering at all: entries whose basename cannot be computed (empty path) are
included as descriptors with an empty download key, not excluded, and no
diagnostic anomaly is logged. -/
theorem flattenOutputs_exact_correspondence :
    (∀ (runId : String) (outputs : Outputs),
        (flattenOutputs runId outputs).length = (outputEntries outputs).length)
    ∧ (∀ (runId : String) (outputs : Outputs),
        (flattenOutputs runId outputs).map OutputFile.path
          = (outputEntries outputs).map (fun e => basenameOf e.2.2))
    ∧ (flattenOutputs "r1" emptyPathOutputs).length = 1 := by
  refine ⟨?_, ?_, rfl⟩
  · intro runId outputs
    rw [flattenOutputs_eq_map, List.length_map]
  · intro runId outputs
    rw [flattenOutputs_eq_map, List.map_map]
    rfl

/-- Counterexample to C1: the claim's fixed 3-second interval after every
`queued`/`processing` response is false of the program.  Because the polling
effect depends on `runStatusInfo?.status` (execute/page.tsx line 284), the
responses that change the status value (undefined→queued, queued→processing)
each clear the freshly scheduled timer (cleanup, line 280) and re-poll
immediately; so `[queued, processing, processing, completed]` produces fetches at
0, 0, 0 and 3000 ms, not at 0, 3000, 6000 and 9000 ms. -/
theorem runEffect_fixed_interval_counterexample :
    runEffect 0 none c1Seq
      = [PollEvent.statusFetch 0, PollEvent.statusFetch 0, PollEvent.statusFetch 0,
         PollEvent.statusFetch 3000, PollEvent.resultsFetch 3000]
    ∧ runEffect 0 none c1Seq
      ≠ [PollEvent.statusFetch 0, PollEvent.statusFetch 3000, PollEvent.statusFetch 6000,
         PollEvent.statusFetch 9000, PollEvent.resultsFetch 9000] :=
  ⟨rfl, by decide⟩

/-- C1 (amended): on start the poller issues a status fetch immediately (no
initial delay).  After a `queued`/`processing` response the next fetch comes
exactly 3000 ms later ONLY when the response's status equals the previously
rendered status value; a response that changes the status value cancels the
scheduled fetch and triggers an immediate re-poll, because the effect re-runs on
its `runStatusInfo?.status` dependency.  Driven by
`[queued, processing, processing, completed]` the fetches occur at 0, 0, 0 and
3000 ms, polling stops at `completed`, and exactly one results fetch is
triggered, after the `completed` response. -/
theorem runEffect_immediate_and_interval :
    (∀ (t : Nat) (rs : List PollResponse),
        (runEffect t none rs).head? = some (PollEvent.statusFetch t))
    ∧ (∀ (t : Nat) (d : StatusSnapshot) (rs : List PollResponse),
        d.status = "queued" ∨ d.status = "processing" →
          runEffect t (some d.status) (PollResponse.success d :: rs)
            = PollEvent.statusFetch t :: runEffect (t + 3000) (some d.status) rs)
    ∧ (∀ (t : Nat) (dep : Option String) (d : StatusSnapshot) (rs : List PollResponse),
        d.status = "queued" ∨ d.status = "processing" →
        dep ≠ some "completed" → dep ≠ some "failed" → dep ≠ some d.status →
          runEffect t dep (PollResponse.success d :: rs)
            = PollEvent.statusFetch t :: runEffect t (some d.status) rs)
    ∧ runEffect 0 none c1Seq
        = [PollEvent.statusFetch 0, PollEvent.statusFetch 0, PollEvent.statusFetch 0,
           PollEvent.statusFetch 3000, PollEvent.resultsFetch 3000] := by
  refine ⟨?_, ?_, ?_, rfl⟩
  · intro t rs
    cases rs <;> simp [runEffect]
  · intro t d rs h
    rcases h with h | h <;> simp [runEffect, pollOutcome, h]
  · intro t dep d rs h h1 h2 h3
    have h4 := Ne.symm h3
    rcases h with h | h <;> rw [h] at h4 <;> simp [runEffect, pollOutcome, h, h1, h2, h4]

/-- Witness for C1 (amended): a `processing` response with the status value
unchanged schedules the next fetch exactly 3000 ms later; one that changes the
status value re-polls immediately. -/
theorem runEffect_immediate_and_interval_witness :
    runEffect 0 (some "processing") [PollResponse.success (mkSnap "w" "processing" 10 "s")]
      = PollEvent.statusFetch 0 :: runEffect 3000 (some "processing") []
    ∧ runEffect 0 (some "queued") [PollResponse.success (mkSnap "w" "processing" 10 "s")]
      = PollEvent.statusFetch 0 :: runEffect 0 (some "processing") [] :=
  ⟨runEffect_immediate_and_interval.2.1 0 (mkSnap "w" "processing" 10 "s") [] (Or.inr rfl),
   runEffect_immediate_and_interval.2.2.1 0 (some "queued") (mkSnap "w" "processing" 10 "s")
      [] (Or.inr rfl) (by decide) (by decide) (by decide)⟩

/-- Counterexample to C2: the first transport or parse error is NOT terminal and a
further status fetch IS issued.  The `catch` sets the status to `"error"`, which
changes the effect's `runStatusInfo?.status` dependency; the guard of
execute/page.tsx line 267 passes for `"error"`, so the effect re-runs and polls
again immediately — after one failing poll at t = 0 a second status fetch is
issued at t = 0. -/
theorem runEffect_error_not_terminal_counterexample :
    runEffect 0 none [PollResponse.failure "boom"]
      = [PollEvent.statusFetch 0, PollEvent.statusFetch 0]
    ∧ runEffect 0 none [PollResponse.failure "boom"] ≠ [PollEvent.statusFetch 0] :=
  ⟨rfl, by decide⟩

/-- C2 (amended): a failing poll ends its poll chain without scheduling a
3-second retry, but — the stored status becoming `"error"` — the effect re-runs
and issues one immediate follow-up status fetch; only when that follow-up fails
too (status value unchanged at `"error"`) does polling stop, and a successful
non-terminal follow-up resumes polling.  The ResultsSection poll loop does not
even do that: its `pollStatus` reschedules 3000 ms after every error,
indefinitely. -/
theorem runEffect_error_refetch :
    (∀ (t : Nat) (msg : String) (rest : List PollResponse) (dep : Option String),
        dep ≠ some "completed" → dep ≠ some "failed" → dep ≠ some "error" →
          runEffect t dep (PollResponse.failure msg :: rest)
            = PollEvent.statusFetch t :: runEffect t (some "error") rest)
    ∧ (∀ (t : Nat) (msg : String) (rest : List PollResponse),
        runEffect t (some "error") (PollResponse.failure msg :: rest)
          = [PollEvent.statusFetch t])
    ∧ runEffect 0 none [PollResponse.failure "a", PollResponse.failure "b",
          PollResponse.success (mkSnap "r1" "processing" 10 "s")]
        = [PollEvent.statusFetch 0, PollEvent.statusFetch 0]
    ∧ runEffect 0 none [PollResponse.failure "a",
          PollResponse.success (mkSnap "r1" "processing" 10 "s"),
          PollResponse.success (mkSnap "r1" "processing" 40 "s")]
        = [PollEvent.statusFetch 0, PollEvent.statusFetch 0, PollEvent.statusFetch 0,
           PollEvent.statusFetch 3000]
    ∧ (∀ (t : Nat) (msg : String) (rest : List PollResponse),
        runPollRS t (PollResponse.failure msg :: rest)
          = PollEvent.statusFetch t :: runPollRS (t + 3000) rest) := by
  refine ⟨?_, ?_, rfl, rfl, fun t msg rest => rfl⟩
  · intro t msg rest dep h1 h2 h3
    have h4 := Ne.symm h3
    simp [runEffect, pollOutcome, h1, h2, h4]
  · intro t msg rest
    simp [runEffect, pollOutcome]

/-- Witness for C2 (amended): a first failing poll at 0 ms is followed by an
immediate re-fetch, and the ResultsSection loop reschedules 3000 ms after an
error. -/
theorem runEffect_error_refetch_witness :
    runEffect 0 none [PollResponse.failure "boom"]
      = PollEvent.statusFetch 0 :: runEffect 0 (some "error") []
    ∧ runPollRS 0 [PollResponse.failure "boom"]
      = PollEvent.statusFetch 0 :: runPollRS 3000 [] :=
  ⟨runEffect_error_refetch.1 0 "boom" [] none (by decide) (by decide) (by decide),
   runEffect_error_refetch.2.2.2.2 0 "boom" []⟩

/-- Counterexample to C3: the claim requires every response handler to check that
its run is still current before mutating state, i.e. a response whose run differs
from the current one must leave the page state unchanged; but the handler of
execute/page.tsx line 208 (`setRunStatusInfo(statusData)`) applies the snapshot
unconditionally, so a stale response for a prior run mutates observable state. -/
theorem applyStatusResponse_unguarded_counterexample :
    ¬ (∀ (st : PageState) (d : StatusSnapshot),
        st.currentRunId ≠ some d.run_id → applyStatusResponse st d = st) := by
  intro h
  have h2 := h { currentRunId := some "r2", runStatusInfo := none, pendingTimer := none }
      (mkSnap "r1" "processing" 10 "stage") (by decide)
  have h3 : (applyStatusResponse
      { currentRunId := some "r2", runStatusInfo := none, pendingTimer := none }
      (mkSnap "r1" "processing" 10 "stage")).runStatusInfo = none := by rw [h2]
  simp [applyStatusResponse] at h3

/-- C3 (amended): starting a new run cancels the prior run's pending scheduled
fetch (the effect cleanup clears the timeout) and resets the status snapshot; but
poll response handlers do not check run currency, so an in-flight response —
which the cleanup cannot cancel — is still applied wholesale to the observable
run-status state when it arrives, whatever run it belongs to. -/
theorem startNewRun_cancels_timer_but_handler_unguarded :
    (∀ (st : PageState) (newId : String), (startNewRun st newId).pendingTimer = none)
    ∧ (∀ (st : PageState) (newId : String), (startNewRun st newId).currentRunId = some newId)
    ∧ (∀ (st : PageState) (newId : String), (startNewRun st newId).runStatusInfo = none)
    ∧ (∀ (st : PageState) (d : StatusSnapshot),
        (applyStatusResponse st d).runStatusInfo = some d)
    ∧ (∀ (st : PageState) (d : StatusSnapshot),
        (applyStatusResponse st d).currentRunId = st.currentRunId) :=
  ⟨fun _ _ => rfl, fun _ _ => rfl, fun _ _ => rfl, fun _ _ => rfl, fun _ _ => rfl⟩

/-- C8: an empty template selection or a missing (or empty, hence falsy) vendor
selection fails validation before anything else: the outcome is the validation
error, zero network calls are issued and no run handle is produced; in particular
`submit([], "vendorX")` is a validation error with zero network calls. -/
theorem handleExecutePipelineStart_validates_before_network :
    (∀ (v : Option String) (store : Option String)
        (parse : String → Option (List ApiEndpoint)),
        handleExecutePipelineStart [] v store parse = (SubmitOutcome.validationError, 0))
    ∧ (∀ (tids : List String) (store : Option String)
        (parse : String → Option (List ApiEndpoint)),
        handleExecutePipelineStart tids none store parse = (SubmitOutcome.validationError, 0))
    ∧ (∀ (tids : List String) (store : Option String)
        (parse : String → Option (List ApiEndpoint)),
        handleExecutePipelineStart tids (some "") store parse
          = (SubmitOutcome.validationError, 0))
    ∧ handleExecutePipelineStart [] (some "vendorX") sampleStore sampleParseEndpoints
        = (SubmitOutcome.validationError, 0) := by
  refine ⟨?_, ?_, ?_, rfl⟩
  · intro v store parse
    simp [handleExecutePipelineStart]
  · intro tids store parse
    simp [handleExecutePipelineStart, vendorFalsy]
  · intro tids store parse
    simp [handleExecutePipelineStart, vendorFalsy]

/-- Counterexample to C9: the suggested file name of a successful bulk-archive
download is `onboarding_results_<runId>.zip` (execute/page.tsx line 335), not the
`archive_<runId>.zip` the claim states. -/
theorem handleDownloadAllZip_name_counterexample :
    handleDownloadAllZip sampleStore sampleParseEndpoints "r1" FetchResult.ok
      = DownloadOutcome.saved "onboarding_results_r1.zip"
    ∧ handleDownloadAllZip sampleStore sampleParseEndpoints "r1" FetchResult.ok
      ≠ DownloadOutcome.saved "archive_r1.zip" :=
  ⟨rfl, by decide⟩

/-- C9 (amended): a successful single-artifact download is saved under exactly the
downloadKey; a successful bulk-archive download is saved under exactly the
synthesized name `onboarding_results_<runId>.zip`. -/
theorem download_saved_names :
    (∀ (store : Option String) (parse : String → Option (List ApiEndpoint))
        (rid fname : String),
        getApiEndpoint store parse "/download/:run_id/:filename" HttpMethod.GET ≠ none →
          handleDownloadFile store parse rid fname FetchResult.ok
            = DownloadOutcome.saved fname)
    ∧ (∀ (store : Option String) (parse : String → Option (List ApiEndpoint))
        (rid : String),
        getApiEndpoint store parse "/download/zip/:run_id" HttpMethod.GET ≠ none →
          handleDownloadAllZip store parse rid FetchResult.ok
            = DownloadOutcome.saved ("onboarding_results_" ++ rid ++ ".zip")) := by
  constructor
  · intro store parse rid fname h
    unfold handleDownloadFile
    split
    · exact absurd (by assumption) h
    · rfl
  · intro store parse rid h
    unfold handleDownloadAllZip
    split
    · exact absurd (by assumption) h
    · rfl

/-- Witness for C9 (amended): with the download endpoints registered, a single
download saves under its downloadKey and the bulk download under the synthesized
archive name. -/
theorem download_saved_names_witness :
    handleDownloadFile sampleStore sampleParseEndpoints "r1" "f.xlsx" FetchResult.ok
      = DownloadOutcome.saved "f.xlsx"
    ∧ handleDownloadAllZip sampleStore sampleParseEndpoints "r1" FetchResult.ok
      = DownloadOutcome.saved ("onboarding_results_" ++ "r1" ++ ".zip") :=
  ⟨download_saved_names.1 sampleStore sampleParseEndpoints "r1" "f.xlsx" (by decide),
   download_saved_names.2 sampleStore sampleParseEndpoints "r1" (by decide)⟩
